import Mathlib

/-
Verification of the wedjat sources against their design description.

The file shallowly embeds the parts of the program that the checked
properties speak about:

* src/detector.js — the gaze detector: template matching (l1Distance,
  checkDimensions), the tick procedure (detect) with its begin/end event
  emission, and the idle/listen/scan mode switches with their interval
  timers.
* src/wedjat.js — the monolithic scan-and-select automaton: the button
  confirm-versus-timeout race (makeButton.scan), the branch and leaf menu
  scan cycles (makeBranchMenu, makeLeafMenu), and the guess menu
  (makeGuessMenu with N_GUESSES = 7).
* src/menu-button.js — the refactored modular implementation, of which the
  guess menu (N_GUESSES = 8, wildcarded query, caseSensitive false) is
  embedded for comparison with the monolithic one.

Buffer text is modelled as List Char (the JavaScript string), fallible
computations as Except String, and the single-threaded event loop as
explicit steps over small state machines.
-/

-- ===========================================================================
-- src/detector.js
-- ===========================================================================

/-- The binary gaze classification kept in my.state of the detector:
detector.js keeps it as the strings "rest" and "gaze". -/
inductive GazeState | rest | gaze
deriving DecidableEq

/-- The two events the detector emitter fires (detector.js lines 25-26). -/
inductive GestureEvent | gestureBegin | gestureEnd
deriving DecidableEq

/-- makeGenericDetector initialises my.state to "rest" (detector.js line 17). -/
def initialGazeState : GazeState := GazeState.rest

/-- The event emission of one detect tick (detector.js lines 86-91): a
gestureBegin event when the state goes from rest to gaze, a gestureEnd event
when it goes from gaze to rest, nothing otherwise. -/
def emitStep (state newState : GazeState) : List GestureEvent :=
  (if state = GazeState.rest ∧ newState = GazeState.gaze
   then [GestureEvent.gestureBegin] else []) ++
  (if state = GazeState.gaze ∧ newState = GazeState.rest
   then [GestureEvent.gestureEnd] else [])

/-- Run the detect state machine over a sequence of tick classifications,
starting from the given state, collecting the emitted events in order.
Each tick ends with my.state = newState (detector.js line 92). -/
def detectRun (state : GazeState) : List GazeState → List GestureEvent
  | [] => []
  | c :: cs => emitStep state c ++ detectRun c cs

/-- Number of occurrences of an event in an emitted event list. -/
def countEvents (e : GestureEvent) : List GestureEvent → Nat
  | [] => 0
  | x :: xs => (if x = e then 1 else 0) + countEvents e xs

/-- Number of a-to-b transitions along a classification sequence that starts
from the given state. -/
def countTrans (a b : GazeState) (state : GazeState) : List GazeState → Nat
  | [] => 0
  | c :: cs => (if state = a ∧ c = b then 1 else 0) + countTrans a b c cs

/-- An ImageData object as l1Distance reads it: width, height, and the pixel
byte array (4 entries per pixel, the fourth being the alpha channel). -/
structure ImageData where
  width : Nat
  height : Nat
  data : Nat → Nat

/-- checkDimensions (detector.js lines 268-278): width and height must both
match, otherwise an Error is thrown. -/
def checkDimensions (img1 img2 : ImageData) : Except String (Nat × Nat) :=
  if img1.width = img2.width ∧ img1.height = img2.height then
    Except.ok (img1.width, img1.height)
  else
    Except.error "Image dimensions do not match."

/-- The accumulation loop of l1Distance (detector.js lines 255-264): indices
below the bound, skipping every index congruent to 3 mod 4 (the alpha
values), adding the absolute difference of the two byte values. -/
def l1Aux (x1 x2 : Nat → Nat) : Nat → Nat
  | 0 => 0
  | i + 1 =>
    l1Aux x1 x2 i + (if i % 4 = 3 then 0 else ((x1 i : Int) - (x2 i : Int)).natAbs)

/-- l1Distance (detector.js lines 248-266): check the dimensions (throwing on
mismatch), then sum absolute channel differences over width * height * 4
indices, alpha excluded. -/
def l1Distance (img1 img2 : ImageData) : Except String Nat :=
  match checkDimensions img1 img2 with
  | Except.error e => Except.error e
  | Except.ok (width, height) =>
    Except.ok (l1Aux img1.data img2.data (width * height * 4))

/-- The distance formula as the design description words it: the sum of
absolute per-channel differences over all pixels, excluding the transparency
channel (channels 0, 1, 2 of each pixel). Stated for comparison against
l1Distance, which is the code form. -/
def specL1Distance (img1 img2 : ImageData) : Nat :=
  ∑ p ∈ Finset.range (img1.width * img1.height), ∑ c ∈ Finset.range 3,
    ((img1.data (4 * p + c) : Int) - (img2.data (4 * p + c) : Int)).natAbs

/-- The classification part of detect (detector.js lines 82-85): compute the
distance of the frame to the rest template and to the gaze template, and take
gaze exactly when the gaze distance is strictly smaller. A thrown dimension
error surfaces to the caller. -/
def classifyFrame (restT gazeT frame : ImageData) : Except String GazeState :=
  match l1Distance frame restT with
  | Except.error e => Except.error e
  | Except.ok dRest =>
    match l1Distance frame gazeT with
    | Except.error e => Except.error e
    | Except.ok dGaze =>
      Except.ok (if dGaze < dRest then GazeState.gaze else GazeState.rest)

/-- Full detect runs over a list of frames: classify each frame against the
two templates, emit the transition events, thread the state. -/
def detectFrames (restT gazeT : ImageData) (state : GazeState) :
    List ImageData → Except String (List GestureEvent)
  | [] => Except.ok []
  | f :: fs =>
    match classifyFrame restT gazeT f with
    | Except.error e => Except.error e
    | Except.ok newState =>
      match detectFrames restT gazeT newState fs with
      | Except.error e => Except.error e
      | Except.ok evs => Except.ok (emitStep state newState ++ evs)

-- The mode switches and their interval timers (detector.js lines 63-65 and
-- 98-113). The timer environment holds the set of live interval timers
-- (identifier and callback period), the stored my.interval handle, and a
-- fresh-identifier counter.

def REFRESH_RATE_LISTEN : Nat := 5

def REFRESH_RATE_SCAN : Nat := 20

structure TimerSystem where
  live : List (Nat × Nat)
  interval : Option Nat
  nextId : Nat

/-- Before any mode switch: no timer live, my.interval = null
(detector.js line 75). -/
def initialTimers : TimerSystem := ⟨[], none, 0⟩

/-- window.clearInterval(my.interval): cancels the timer the stored handle
names; a null or already-cleared handle is a no-op. -/
def clearStoredInterval (s : TimerSystem) : TimerSystem :=
  match s.interval with
  | none => s
  | some h => ⟨s.live.filter (fun t => t.1 != h), s.interval, s.nextId⟩

/-- my.interval = window.setInterval(my.detect, period): start a fresh
interval timer and store its handle. -/
def setStoredInterval (period : Nat) (s : TimerSystem) : TimerSystem :=
  ⟨(s.nextId, period) :: s.live, some s.nextId, s.nextId + 1⟩

/-- The three public mode-switch methods of makeGazeDetector. -/
inductive DetectorMode | idleMode | listenMode | scanMode
deriving DecidableEq

/-- The timer effect of each mode switch (detector.js lines 98-113): idleMode
clears the stored interval; listenMode and scanMode clear it and then start a
new interval at their refresh rate. -/
def applyMode (s : TimerSystem) : DetectorMode → TimerSystem
  | DetectorMode.idleMode => clearStoredInterval s
  | DetectorMode.listenMode =>
    setStoredInterval (1000 / REFRESH_RATE_LISTEN) (clearStoredInterval s)
  | DetectorMode.scanMode =>
    setStoredInterval (1000 / REFRESH_RATE_SCAN) (clearStoredInterval s)

-- ===========================================================================
-- src/wedjat.js — makeButton.scan (lines 414-441): the confirm/timeout race
-- ===========================================================================

/-- The race-relevant state of one armed button: whether the onPress gaze
listener is registered with the detector, whether the deadline timeout is
still scheduled, whether the press path has started (afterPress scheduled,
leading to the action), and whether cbpassed ran (the scan advanced). -/
structure ButtonScanState where
  listenerActive : Bool
  timerActive : Bool
  pressStarted : Bool
  passed : Bool
deriving DecidableEq

/-- State right after that.scan registers onPress and schedules the deadline
(wedjat.js lines 439-440). -/
def armButton : ButtonScanState := ⟨true, true, false, false⟩

/-- State after onPress ran: listener deregistered, deadline cleared,
press path started (wedjat.js lines 425-427). -/
def pressResolved : ButtonScanState := ⟨false, false, true, false⟩

/-- State after onTimeout ran: listener deregistered, timer fired, cbpassed
invoked so the scan advanced to the next button (wedjat.js lines 429-434). -/
def passedResolved : ButtonScanState := ⟨false, false, false, true⟩

/-- The two event deliveries the armed button can receive from the
single-threaded event loop. -/
inductive ScanRaceEvent | gesture | deadline
deriving DecidableEq

/-- Event-loop semantics of the race. A gesture runs onPress only if the
listener is still registered (removeGazeListener; clearTimeout; schedule
afterPress). The deadline runs onTimeout only if the timeout is still
scheduled (removeGazeListener; cbpassed). Anything else is a no-op. -/
def scanStep (s : ButtonScanState) : ScanRaceEvent → ButtonScanState
  | ScanRaceEvent.gesture =>
    if s.listenerActive then ⟨false, false, true, s.passed⟩ else s
  | ScanRaceEvent.deadline =>
    if s.timerActive then ⟨false, false, s.pressStarted, true⟩ else s

-- ===========================================================================
-- src/wedjat.js — menus (lines 86-273)
-- ===========================================================================

/-- my.nextButton (wedjat.js lines 123-125). -/
def nextButton (nButtons buttonIx : Nat) : Nat := (buttonIx + 1) % nButtons

/-- my.isLastButton (wedjat.js lines 126-128). -/
def isLastButton (nButtons buttonIx : Nat) : Bool := buttonIx == nButtons - 1

/-- LEAF_LOOPS (wedjat.js line 249): passes through a leaf menu before
jumping to the parent. -/
def LEAF_LOOPS : Nat := 2

/-- my.isLastLoop (wedjat.js lines 251-253), with the loop limit a
parameter whose value in the source is LEAF_LOOPS. -/
def isLastLoop (leafLoops loopIx : Nat) : Bool := loopIx == leafLoops - 1

/-- my.nextLoop (wedjat.js lines 254-256). -/
def nextLoop (nButtons buttonIx loopIx : Nat) : Nat :=
  if isLastButton nButtons buttonIx then loopIx + 1 else loopIx

/-- Continuation a branch menu hands to an armed button: the only thing a
branch menu ever does next is re-enter scanAt at some index. -/
inductive BranchOutcome | scanAt (buttonIx : Nat)
deriving DecidableEq

/-- Continuation a leaf menu hands to an armed button: re-enter scanAt at
some index and loop index, or slide up and have the parent scan
(that.parent.scan(), wedjat.js lines 258-261). -/
inductive LeafOutcome | scanAt (buttonIx loopIx : Nat) | parentScan
deriving DecidableEq

/-- The pair of callbacks one scanAt cycle passes to button.scan:
cbpassed runs on timeout, cbpressed after a confirmed plain action. -/
structure BranchScanCycle where
  cbpassed : BranchOutcome
  cbpressed : BranchOutcome

structure LeafScanCycle where
  cbpassed : LeafOutcome
  cbpressed : LeafOutcome

/-- that.scan of makeMenu (wedjat.js lines 185-188): slideDown, then
my.scanAt(0, 0). -/
def menuScan : BranchOutcome := BranchOutcome.scanAt 0

/-- makeBranchMenu.scanAt (wedjat.js lines 225-230): cbpassed re-enters at
the next index; cbpressed is that.scan, restarting at index 0. -/
def branchScanAt (nButtons buttonIx : Nat) : BranchScanCycle :=
  ⟨BranchOutcome.scanAt (nextButton nButtons buttonIx), menuScan⟩

/-- makeLeafMenu.scanAt (wedjat.js lines 257-270): cbpressed slides the menu
up and has the parent scan; cbpassed is cbpressed on the last button of the
last loop and otherwise re-enters at the next index and loop. -/
def leafScanAt (nButtons leafLoops buttonIx loopIx : Nat) : LeafScanCycle :=
  ⟨if isLastButton nButtons buttonIx && isLastLoop leafLoops loopIx
    then LeafOutcome.parentScan
    else LeafOutcome.scanAt (nextButton nButtons buttonIx)
           (nextLoop nButtons buttonIx loopIx),
   LeafOutcome.parentScan⟩

/-- A plain button action (makeTextButton.action, wedjat.js lines 610-613)
performs its buffer write and then invokes cbpressed: the continuation after
a confirmed plain button in a branch menu is the cycle cbpressed. -/
def plainConfirmedBranch (cycle : BranchScanCycle) : BranchOutcome :=
  cycle.cbpressed

/-- Continuation after a confirmed plain button in a leaf menu. -/
def plainConfirmedLeaf (cycle : LeafScanCycle) : LeafOutcome :=
  cycle.cbpressed

/-- One timeout step of a leaf menu run: take the cbpassed continuation of
the current cell; parentScan ends the run (none). -/
def leafStep (nButtons leafLoops : Nat) (cell : Nat × Nat) : Option (Nat × Nat) :=
  match (leafScanAt nButtons leafLoops cell.1 cell.2).cbpassed with
  | LeafOutcome.scanAt ix2 loop2 => some (ix2, loop2)
  | LeafOutcome.parentScan => none

/-- The cell armed after k timeouts of an unconfirmed leaf-menu scan that
started with that.scan, that is at scanAt(0, 0); none once control has been
handed back to the parent. -/
def leafRunState (nButtons leafLoops : Nat) : Nat → Option (Nat × Nat)
  | 0 => some (0, 0)
  | k + 1 => (leafRunState nButtons leafLoops k).bind (leafStep nButtons leafLoops)

/-- Shift a run cell one loop up (used to relate a run with loop limit L + 1
to a run with loop limit L). -/
def shiftCell : Option (Nat × Nat) → Option (Nat × Nat) :=
  Option.map (fun c => (c.1, c.2 + 1))

-- ===========================================================================
-- The two guess menus: makeGuessMenu of src/wedjat.js (lines 281-344,
-- monolithic) and makeGuessMenu of the refactored modular sources
-- (menu-button.js representation, N_GUESSES = 8).
-- ===========================================================================

/-- JavaScript split(" ") on a character list: splitting on every single
space, keeping empty fragments, and yielding one empty fragment for the
empty string. -/
def splitSpaces : List Char → List (List Char)
  | [] => [[]]
  | c :: cs =>
    match splitSpaces cs with
    | [] => [[]]
    | t :: ts => if c = ' ' then [] :: t :: ts else (c :: t) :: ts

/-- inputText.split(" ").slice(-1)[0]: the final space-separated token of the
buffer text (wedjat.js line 324). -/
def lastToken (inputText : List Char) : List Char :=
  (splitSpaces inputText).getLastD []

/-- The data of one wordnik web query as both guess menus assemble it:
the search word appended to the query URL, and the minCorpusCount,
caseSensitive and limit request parameters. -/
structure WordnikQuery where
  word : List Char
  minCorpusCount : Nat
  caseSensitive : Bool
  limit : Nat
deriving DecidableEq

/-- One raw entry of data.searchResults in the wordnik response. -/
structure SearchResult where
  word : List Char
deriving DecidableEq

/-- What one guessWord invocation does: the web query it issues (none when no
query is issued) and the guess list its callback cb receives. -/
structure GuessCall where
  queried : Option WordnikQuery
  result : List (List Char)
deriving DecidableEq

/-- Modelled from the spec: util.js is not among the sources; util.repeat is
the list of n copies of x handed to cb when there is no text
(wedjat.js line 326). -/
def utilRepeat (x : List Char) (n : Nat) : List (List Char) :=
  List.replicate n x

/-- Modelled from the spec: util.js is not among the sources; util.pad pads
the guess list with copies of the filler up to the proper number of guesses
(wedjat.js line 316). -/
def utilPad (xs : List (List Char)) (filler : List Char) (n : Nat) :
    List (List Char) :=
  xs ++ List.replicate (n - xs.length) filler

namespace Wedjat

/-- N_GUESSES of the monolithic makeGuessMenu (wedjat.js line 290). -/
def N_GUESSES : Nat := 7

/-- MIN_COUNT (wedjat.js line 291). -/
def MIN_COUNT : Nat := 1000

/-- my.wordnik (wedjat.js lines 294-311): the query for a given search text,
caseSensitive true, limit N_GUESSES. -/
def wordnik (text : List Char) : WordnikQuery :=
  ⟨text, MIN_COUNT, true, N_GUESSES⟩

/-- my.guessWord (wedjat.js lines 312-330): take the last token of the buffer
text; with no text, call cb with N_GUESSES empty guesses and issue no query;
otherwise query wordnik with the token itself and hand cb the words of
data.searchResults.slice(1), padded to N_GUESSES. -/
def guessWord (inputText : List Char) (searchResults : List SearchResult) :
    GuessCall :=
  let text := lastToken inputText
  if text = [] then ⟨none, utilRepeat [] N_GUESSES⟩
  else ⟨some (wordnik text),
        utilPad ((searchResults.drop 1).map SearchResult.word) [] N_GUESSES⟩

end Wedjat

namespace Modular

/-- N_GUESSES of the refactored makeGuessMenu (modular sources). -/
def N_GUESSES : Nat := 8

/-- MIN_COUNT of the refactored makeGuessMenu. -/
def MIN_COUNT : Nat := 1000

/-- my.wordnik of the refactored makeGuessMenu: caseSensitive false,
limit N_GUESSES = 8. -/
def wordnik (text : List Char) : WordnikQuery :=
  ⟨text, MIN_COUNT, false, N_GUESSES⟩

/-- my.guessWord of the refactored makeGuessMenu: as the monolithic one, but
the wordnik query word is the token with a wildcard appended, so guesses are
retrieved even for a completed word. -/
def guessWord (inputText : List Char) (searchResults : List SearchResult) :
    GuessCall :=
  let text := lastToken inputText
  if text = [] then ⟨none, utilRepeat [] N_GUESSES⟩
  else ⟨some (wordnik (text ++ ['*'])),
        utilPad ((searchResults.drop 1).map SearchResult.word) [] N_GUESSES⟩

end Modular

-- Concrete images used by the closed witness statements.

/-- A one-by-one image whose bytes are all zero. -/
def sampleImage : ImageData := ⟨1, 1, fun _ => 0⟩

/-- A two-by-one image whose bytes are all zero: width differs from
sampleImage. -/
def sampleImageWide : ImageData := ⟨2, 1, fun _ => 0⟩

-- This def belongs to the verification layer: the invariant the mode
-- switches preserve on the timer environment.

/-- Every live timer is the one the stored handle names, and at most one
timer is live. -/
def TimerInv (s : TimerSystem) : Prop :=
  (∀ t ∈ s.live, s.interval = some t.1) ∧ s.live.length ≤ 1

-- ===========================================================================
-- Theorems
-- ===========================================================================

-- Claim C1 — the confirm/timeout race of makeButton.scan.

theorem scanStep_pressResolved (e : ScanRaceEvent) :
    scanStep pressResolved e = pressResolved := by
  cases e <;> rfl

theorem scanStep_passedResolved (e : ScanRaceEvent) :
    scanStep passedResolved e = passedResolved := by
  cases e <;> rfl

theorem foldl_scanStep_pressResolved (es : List ScanRaceEvent) :
    es.foldl scanStep pressResolved = pressResolved := by
  induction es with
  | nil => rfl
  | cons e es ih => rw [List.foldl_cons, scanStep_pressResolved, ih]

theorem foldl_scanStep_passedResolved (es : List ScanRaceEvent) :
    es.foldl scanStep passedResolved = passedResolved := by
  induction es with
  | nil => rfl
  | cons e es ih => rw [List.foldl_cons, scanStep_passedResolved, ih]

theorem foldl_scanStep_reach (es : List ScanRaceEvent) :
    es.foldl scanStep armButton = armButton ∨
    es.foldl scanStep armButton = pressResolved ∨
    es.foldl scanStep armButton = passedResolved := by
  cases es with
  | nil => exact Or.inl rfl
  | cons e es =>
    rw [List.foldl_cons]
    cases e with
    | gesture =>
      rw [show scanStep armButton ScanRaceEvent.gesture = pressResolved from rfl,
          foldl_scanStep_pressResolved]
      exact Or.inr (Or.inl rfl)
    | deadline =>
      rw [show scanStep armButton ScanRaceEvent.deadline = passedResolved from rfl,
          foldl_scanStep_passedResolved]
      exact Or.inr (Or.inr rfl)

/-- Claim C1: for every armed button, exactly one of the two race outcomes
runs. In every event-delivery sequence the press path and the passed path
never both run; if the gesture arrives first the race resolves to
pressResolved (deadline cleared, listener deregistered, action path taken);
if the deadline fires first it resolves to passedResolved (listener
deregistered, scan advanced), and any confirmation gesture delivered
afterwards leaves pressStarted false — the action of that button is never
invoked. -/
theorem claim_C1 (es : List ScanRaceEvent) :
    ((es.foldl scanStep armButton).pressStarted &&
      (es.foldl scanStep armButton).passed) = false ∧
    (ScanRaceEvent.gesture :: es).foldl scanStep armButton = pressResolved ∧
    (ScanRaceEvent.deadline :: es).foldl scanStep armButton = passedResolved ∧
    ((ScanRaceEvent.deadline :: es).foldl scanStep armButton).pressStarted = false := by
  refine ⟨?_, ?_, ?_, ?_⟩
  · rcases foldl_scanStep_reach es with h | h | h <;> rw [h] <;> rfl
  · rw [List.foldl_cons,
        show scanStep armButton ScanRaceEvent.gesture = pressResolved from rfl,
        foldl_scanStep_pressResolved]
  · rw [List.foldl_cons,
        show scanStep armButton ScanRaceEvent.deadline = passedResolved from rfl,
        foldl_scanStep_passedResolved]
  · rw [List.foldl_cons,
        show scanStep armButton ScanRaceEvent.deadline = passedResolved from rfl,
        foldl_scanStep_passedResolved]
    rfl

-- Claim C2 — event emission of the detect tick.

theorem countEvents_append (e : GestureEvent) (xs ys : List GestureEvent) :
    countEvents e (xs ++ ys) = countEvents e xs + countEvents e ys := by
  induction xs with
  | nil => simp [countEvents]
  | cons x xs ih => simp [countEvents, ih, Nat.add_assoc]

theorem detectRun_count_begin (cs : List GazeState) : ∀ state : GazeState,
    countEvents GestureEvent.gestureBegin (detectRun state cs) =
      countTrans GazeState.rest GazeState.gaze state cs := by
  induction cs with
  | nil => intro state; rfl
  | cons c cs ih =>
    intro state
    show countEvents GestureEvent.gestureBegin (emitStep state c ++ detectRun c cs) = _
    rw [countEvents_append, ih c]
    show _ = (if state = GazeState.rest ∧ c = GazeState.gaze then 1 else 0) + _
    congr 1
    cases state <;> cases c <;> rfl

theorem detectRun_count_end (cs : List GazeState) : ∀ state : GazeState,
    countEvents GestureEvent.gestureEnd (detectRun state cs) =
      countTrans GazeState.gaze GazeState.rest state cs := by
  induction cs with
  | nil => intro state; rfl
  | cons c cs ih =>
    intro state
    show countEvents GestureEvent.gestureEnd (emitStep state c ++ detectRun c cs) = _
    rw [countEvents_append, ih c]
    show _ = (if state = GazeState.gaze ∧ c = GazeState.rest then 1 else 0) + _
    congr 1
    cases state <;> cases c <;> rfl

/-- Claim C2: the detector starts in the rest state; over any sequence of
tick classifications it emits gestureBegin exactly once per rest-to-gaze
transition and gestureEnd exactly once per gaze-to-rest transition, and a
tick whose classification equals the previous state emits nothing. -/
theorem claim_C2 :
    initialGazeState = GazeState.rest ∧
    (∀ cs : List GazeState,
      countEvents GestureEvent.gestureBegin (detectRun initialGazeState cs) =
        countTrans GazeState.rest GazeState.gaze initialGazeState cs ∧
      countEvents GestureEvent.gestureEnd (detectRun initialGazeState cs) =
        countTrans GazeState.gaze GazeState.rest initialGazeState cs) ∧
    (∀ state : GazeState, emitStep state state = []) :=
  ⟨rfl,
   fun cs => ⟨detectRun_count_begin cs initialGazeState,
              detectRun_count_end cs initialGazeState⟩,
   fun state => by cases state <;> rfl⟩

-- Claim C5 — mode switches leave at most one live poll timer.

theorem timerInv_init : TimerInv initialTimers :=
  ⟨fun t ht => absurd ht (List.not_mem_nil t), by simp [initialTimers]⟩

theorem setStoredInterval_live (p : Nat) (s : TimerSystem) :
    (setStoredInterval p s).live = (s.nextId, p) :: s.live := rfl

theorem setStoredInterval_interval (p : Nat) (s : TimerSystem) :
    (setStoredInterval p s).interval = some s.nextId := rfl

theorem clearStoredInterval_live_nil (s : TimerSystem) (h : TimerInv s) :
    (clearStoredInterval s).live = [] := by
  cases hi : s.interval with
  | none =>
    simp only [clearStoredInterval, hi]
    refine List.eq_nil_iff_forall_not_mem.mpr fun t ht => ?_
    have h2 := h.1 t ht
    rw [hi] at h2
    exact Option.noConfusion h2
  | some hd =>
    simp only [clearStoredInterval, hi]
    rw [List.filter_eq_nil_iff]
    intro a ha
    have h2 := h.1 a ha
    rw [hi] at h2
    have h3 : hd = a.1 := Option.some.inj h2
    rw [h3]
    simp

theorem applyMode_inv (s : TimerSystem) (h : TimerInv s) (m : DetectorMode) :
    TimerInv (applyMode s m) := by
  have hclear := clearStoredInterval_live_nil s h
  cases m with
  | idleMode =>
    refine ⟨fun t ht => ?_, ?_⟩
    · rw [show applyMode s DetectorMode.idleMode = clearStoredInterval s from rfl,
          hclear] at ht
      exact absurd ht (List.not_mem_nil t)
    · rw [show applyMode s DetectorMode.idleMode = clearStoredInterval s from rfl,
          hclear]
      simp
  | listenMode =>
    refine ⟨fun t ht => ?_, ?_⟩
    · rw [show applyMode s DetectorMode.listenMode =
            setStoredInterval (1000 / REFRESH_RATE_LISTEN) (clearStoredInterval s)
            from rfl] at ht ⊢
      rw [setStoredInterval_live, hclear, List.mem_singleton] at ht
      rw [setStoredInterval_interval, ht]
    · rw [show applyMode s DetectorMode.listenMode =
            setStoredInterval (1000 / REFRESH_RATE_LISTEN) (clearStoredInterval s)
            from rfl, setStoredInterval_live, hclear]
      simp
  | scanMode =>
    refine ⟨fun t ht => ?_, ?_⟩
    · rw [show applyMode s DetectorMode.scanMode =
            setStoredInterval (1000 / REFRESH_RATE_SCAN) (clearStoredInterval s)
            from rfl] at ht ⊢
      rw [setStoredInterval_live, hclear, List.mem_singleton] at ht
      rw [setStoredInterval_interval, ht]
    · rw [show applyMode s DetectorMode.scanMode =
            setStoredInterval (1000 / REFRESH_RATE_SCAN) (clearStoredInterval s)
            from rfl, setStoredInterval_live, hclear]
      simp

theorem foldl_applyMode_inv (ms : List DetectorMode) : ∀ s, TimerInv s →
    TimerInv (ms.foldl applyMode s) := by
  induction ms with
  | nil => intro s h; exact h
  | cons m ms ih =>
    intro s h
    rw [List.foldl_cons]
    exact ih (applyMode s m) (applyMode_inv s h m)

/-- Claim C5: after any sequence of mode switches at most one poll timer is
live; a sequence ending in idleMode leaves no timer live, and one ending in
listenMode or scanMode leaves exactly one. -/
theorem claim_C5 :
    (∀ ms : List DetectorMode,
      (ms.foldl applyMode initialTimers).live.length ≤ 1) ∧
    (∀ ms : List DetectorMode,
      ((ms ++ [DetectorMode.idleMode]).foldl applyMode initialTimers).live = []) ∧
    (∀ ms : List DetectorMode,
      ((ms ++ [DetectorMode.listenMode]).foldl applyMode initialTimers).live.length = 1) ∧
    (∀ ms : List DetectorMode,
      ((ms ++ [DetectorMode.scanMode]).foldl applyMode initialTimers).live.length = 1) := by
  have hbase : ∀ ms : List DetectorMode, TimerInv (ms.foldl applyMode initialTimers) :=
    fun ms => foldl_applyMode_inv ms initialTimers timerInv_init
  refine ⟨fun ms => (hbase ms).2, fun ms => ?_, fun ms => ?_, fun ms => ?_⟩
  · rw [List.foldl_append, List.foldl_cons, List.foldl_nil]
    exact clearStoredInterval_live_nil _ (hbase ms)
  · rw [List.foldl_append, List.foldl_cons, List.foldl_nil,
        show ∀ s, applyMode s DetectorMode.listenMode =
          setStoredInterval (1000 / REFRESH_RATE_LISTEN) (clearStoredInterval s)
          from fun s => rfl,
        setStoredInterval_live, clearStoredInterval_live_nil _ (hbase ms)]
    rfl
  · rw [List.foldl_append, List.foldl_cons, List.foldl_nil,
        show ∀ s, applyMode s DetectorMode.scanMode =
          setStoredInterval (1000 / REFRESH_RATE_SCAN) (clearStoredInterval s)
          from fun s => rfl,
        setStoredInterval_live, clearStoredInterval_live_nil _ (hbase ms)]
    rfl

-- Claim C6 — dimension mismatch fails fatally.

theorem l1Distance_mismatch (img1 img2 : ImageData)
    (h : img1.width ≠ img2.width ∨ img1.height ≠ img2.height) :
    l1Distance img1 img2 = Except.error "Image dimensions do not match." := by
  have hne : ¬(img1.width = img2.width ∧ img1.height = img2.height) := by
    rintro ⟨h1, h2⟩
    rcases h with h | h
    · exact h h1
    · exact h h2
  have hc : checkDimensions img1 img2 =
      Except.error "Image dimensions do not match." := by
    simp only [checkDimensions, if_neg hne]
  simp only [l1Distance, hc]

theorem l1Distance_ok_form (img1 img2 : ImageData)
    (hw : img1.width = img2.width) (hh : img1.height = img2.height) :
    l1Distance img1 img2 =
      Except.ok (l1Aux img1.data img2.data (img1.width * img1.height * 4)) := by
  have hc : checkDimensions img1 img2 = Except.ok (img1.width, img1.height) := by
    simp only [checkDimensions, if_pos (And.intro hw hh)]
  simp only [l1Distance, hc]

/-- Claim C6: for every pair of images whose widths or heights differ, the
distance computation returns the thrown dimension error and never a number,
and a detect tick whose frame mismatches either template surfaces that error
and never returns a classification. -/
theorem claim_C6 (img1 img2 : ImageData)
    (h : img1.width ≠ img2.width ∨ img1.height ≠ img2.height) :
    l1Distance img1 img2 = Except.error "Image dimensions do not match." ∧
    (∀ gazeT : ImageData, classifyFrame img2 gazeT img1 =
      Except.error "Image dimensions do not match.") ∧
    (∀ restT : ImageData, restT.width = img1.width → restT.height = img1.height →
      classifyFrame restT img2 img1 =
        Except.error "Image dimensions do not match.") := by
  have hmain := l1Distance_mismatch img1 img2 h
  refine ⟨hmain, fun gazeT => ?_, fun restT hrw hrh => ?_⟩
  · simp only [classifyFrame, hmain]
  · have hok := l1Distance_ok_form img1 restT hrw.symm hrh.symm
    simp only [classifyFrame, hok, hmain]

/-- Witness for claim C6 at a concrete mismatched pair: a one-by-one and a
two-by-one image. -/
theorem claim_C6_witness :
    l1Distance sampleImage sampleImageWide =
      Except.error "Image dimensions do not match." ∧
    (∀ gazeT : ImageData, classifyFrame sampleImageWide gazeT sampleImage =
      Except.error "Image dimensions do not match.") ∧
    (∀ restT : ImageData,
      restT.width = sampleImage.width → restT.height = sampleImage.height →
      classifyFrame restT sampleImageWide sampleImage =
        Except.error "Image dimensions do not match.") :=
  claim_C6 sampleImage sampleImageWide (Or.inl (by decide))

-- Claim C7 — the distance formula and the classification rule.

theorem sum_range_three (f : Nat → Nat) :
    ∑ c ∈ Finset.range 3, f c = f 0 + f 1 + f 2 := by
  rw [show (3 : Nat) = 2 + 1 from rfl, Finset.sum_range_succ,
      show (2 : Nat) = 1 + 1 from rfl, Finset.sum_range_succ,
      Finset.sum_range_one]

theorem l1Aux_eq_spec (x1 x2 : Nat → Nat) (n : Nat) :
    l1Aux x1 x2 (4 * n) =
      ∑ p ∈ Finset.range n, ∑ c ∈ Finset.range 3,
        ((x1 (4 * p + c) : Int) - (x2 (4 * p + c) : Int)).natAbs := by
  induction n with
  | zero => simp [l1Aux]
  | succ n ih =>
    have u4 : l1Aux x1 x2 (4 * (n + 1)) = l1Aux x1 x2 (4 * n + 3) +
        (if (4 * n + 3) % 4 = 3 then 0
         else ((x1 (4 * n + 3) : Int) - (x2 (4 * n + 3) : Int)).natAbs) := by
      rw [show 4 * (n + 1) = (4 * n + 3) + 1 by ring]
      rfl
    have u3 : l1Aux x1 x2 (4 * n + 3) = l1Aux x1 x2 (4 * n + 2) +
        (if (4 * n + 2) % 4 = 3 then 0
         else ((x1 (4 * n + 2) : Int) - (x2 (4 * n + 2) : Int)).natAbs) := by
      rw [show 4 * n + 3 = (4 * n + 2) + 1 by ring]
      rfl
    have u2 : l1Aux x1 x2 (4 * n + 2) = l1Aux x1 x2 (4 * n + 1) +
        (if (4 * n + 1) % 4 = 3 then 0
         else ((x1 (4 * n + 1) : Int) - (x2 (4 * n + 1) : Int)).natAbs) := by
      rw [show 4 * n + 2 = (4 * n + 1) + 1 by ring]
      rfl
    have u1 : l1Aux x1 x2 (4 * n + 1) = l1Aux x1 x2 (4 * n) +
        (if (4 * n) % 4 = 3 then 0
         else ((x1 (4 * n) : Int) - (x2 (4 * n) : Int)).natAbs) := by
      rw [show 4 * n + 1 = (4 * n) + 1 by ring]
      rfl
    rw [u4, u3, u2, u1, ih,
        if_pos (show (4 * n + 3) % 4 = 3 by omega),
        if_neg (show ¬(4 * n + 2) % 4 = 3 by omega),
        if_neg (show ¬(4 * n + 1) % 4 = 3 by omega),
        if_neg (show ¬(4 * n) % 4 = 3 by omega),
        Finset.sum_range_succ, sum_range_three]
    simp only [Nat.add_zero, add_zero]
    ring

theorem l1Distance_eq_spec (img1 img2 : ImageData)
    (hw : img1.width = img2.width) (hh : img1.height = img2.height) :
    l1Distance img1 img2 = Except.ok (specL1Distance img1 img2) := by
  rw [l1Distance_ok_form img1 img2 hw hh]
  congr 1
  rw [show img1.width * img1.height * 4 = 4 * (img1.width * img1.height) by ring,
      l1Aux_eq_spec]
  rfl

/-- Claim C7: for a frame and two templates of the same dimensions, each
detect tick computes both distances as the sum of absolute per-channel
differences over all pixels excluding the alpha channel, classifies as the
strictly closer template, and classifies as resting when the two distances
are equal. -/
theorem claim_C7 (frame restT gazeT : ImageData)
    (hrw : frame.width = restT.width) (hrh : frame.height = restT.height)
    (hgw : frame.width = gazeT.width) (hgh : frame.height = gazeT.height) :
    l1Distance frame restT = Except.ok (specL1Distance frame restT) ∧
    l1Distance frame gazeT = Except.ok (specL1Distance frame gazeT) ∧
    classifyFrame restT gazeT frame =
      Except.ok (if specL1Distance frame gazeT < specL1Distance frame restT
                 then GazeState.gaze else GazeState.rest) ∧
    (specL1Distance frame gazeT = specL1Distance frame restT →
      classifyFrame restT gazeT frame = Except.ok GazeState.rest) := by
  have h1 := l1Distance_eq_spec frame restT hrw hrh
  have h2 := l1Distance_eq_spec frame gazeT hgw hgh
  have h3 : classifyFrame restT gazeT frame =
      Except.ok (if specL1Distance frame gazeT < specL1Distance frame restT
                 then GazeState.gaze else GazeState.rest) := by
    simp only [classifyFrame, h1, h2]
  refine ⟨h1, h2, h3, fun heq => ?_⟩
  rw [h3, heq, if_neg (lt_irrefl (specL1Distance frame restT))]

/-- Witness for claim C7 at a concrete frame and templates (all equal to the
one-by-one zero image). -/
theorem claim_C7_witness :
    l1Distance sampleImage sampleImage =
      Except.ok (specL1Distance sampleImage sampleImage) ∧
    l1Distance sampleImage sampleImage =
      Except.ok (specL1Distance sampleImage sampleImage) ∧
    classifyFrame sampleImage sampleImage sampleImage =
      Except.ok (if specL1Distance sampleImage sampleImage <
                    specL1Distance sampleImage sampleImage
                 then GazeState.gaze else GazeState.rest) ∧
    (specL1Distance sampleImage sampleImage =
        specL1Distance sampleImage sampleImage →
      classifyFrame sampleImage sampleImage sampleImage =
        Except.ok GazeState.rest) :=
  claim_C7 sampleImage sampleImage sampleImage rfl rfl rfl rfl

-- Claim C9 — identical templates: ties everywhere, no events ever.

theorem classifyFrame_same_templates (t frame : ImageData)
    (hw : frame.width = t.width) (hh : frame.height = t.height) :
    classifyFrame t t frame = Except.ok GazeState.rest := by
  have h1 := l1Distance_ok_form frame t hw hh
  simp only [classifyFrame, h1]
  rw [if_neg (lt_irrefl (l1Aux frame.data t.data (frame.width * frame.height * 4)))]

theorem detectFrames_same_templates (t : ImageData) :
    ∀ frames : List ImageData,
    (∀ f ∈ frames, f.width = t.width ∧ f.height = t.height) →
    detectFrames t t GazeState.rest frames = Except.ok [] := by
  intro frames
  induction frames with
  | nil => intro _; rfl
  | cons f fs ih =>
    intro hdims
    have hf := hdims f (List.mem_cons_self f fs)
    have hcl := classifyFrame_same_templates t f hf.1 hf.2
    have hrec := ih fun g hg => hdims g (List.mem_cons_of_mem f hg)
    simp only [detectFrames, hcl, hrec]
    rfl

/-- Claim C9: when the two templates are identical (and match the frame
dimensions), every tick computes equal distances to them, classifies the
frame as resting, and the detector run from its initial rest state emits no
event at all. -/
theorem claim_C9 (restT gazeT : ImageData) (frames : List ImageData)
    (hsame : restT = gazeT)
    (hdims : ∀ f ∈ frames, f.width = restT.width ∧ f.height = restT.height) :
    (∀ f ∈ frames, l1Distance f restT = l1Distance f gazeT ∧
      classifyFrame restT gazeT f = Except.ok GazeState.rest) ∧
    detectFrames restT gazeT initialGazeState frames = Except.ok [] := by
  subst hsame
  exact ⟨fun f hf =>
          ⟨rfl, classifyFrame_same_templates restT f (hdims f hf).1 (hdims f hf).2⟩,
         detectFrames_same_templates restT frames hdims⟩

/-- Witness for claim C9: both templates the one-by-one zero image, one
frame equal to it. -/
theorem claim_C9_witness :
    (∀ f ∈ [sampleImage], l1Distance f sampleImage = l1Distance f sampleImage ∧
      classifyFrame sampleImage sampleImage f = Except.ok GazeState.rest) ∧
    detectFrames sampleImage sampleImage initialGazeState [sampleImage] =
      Except.ok [] :=
  claim_C9 sampleImage sampleImage [sampleImage] rfl
    (by
      intro f hf
      rw [List.mem_singleton] at hf
      subst hf
      exact ⟨rfl, rfl⟩)

-- Claim C3 — what a confirmed plain action leads to.

/-- Counterexample to claim C3 as stated: in a branch menu with three
buttons, a plain button confirmed at index 1 re-arms the menu at index 0
(that.scan), not at the next index 2; and in a leaf menu a confirmed plain
button hands control to the parent instead of re-arming the same menu. -/
theorem claim_C3_counterexample :
    plainConfirmedBranch (branchScanAt 3 1) = BranchOutcome.scanAt 0 ∧
    nextButton 3 1 = 2 ∧
    decide (plainConfirmedBranch (branchScanAt 3 1) =
      BranchOutcome.scanAt (nextButton 3 1)) = false ∧
    plainConfirmedLeaf (leafScanAt 3 LEAF_LOOPS 1 0) = LeafOutcome.parentScan ∧
    decide (plainConfirmedLeaf (leafScanAt 3 LEAF_LOOPS 1 0) =
      LeafOutcome.scanAt (nextButton 3 1) 0) = false := by
  decide

/-- Claim C3 as amended: after a plain (non-menu-opening, non-return) button
is confirmed and its action completes, a branch menu re-arms at index 0 (its
cbpressed is that.scan, which restarts scanAt(0, 0)) and a leaf menu slides
up and hands control to its parent; it is the timeout path (cbpassed) that
advances to the next index, (buttonIx + 1) mod nButtons. -/
theorem claim_C3_amended (nButtons leafLoops buttonIx loopIx : Nat) :
    plainConfirmedBranch (branchScanAt nButtons buttonIx) =
      BranchOutcome.scanAt 0 ∧
    plainConfirmedLeaf (leafScanAt nButtons leafLoops buttonIx loopIx) =
      LeafOutcome.parentScan ∧
    (branchScanAt nButtons buttonIx).cbpassed =
      BranchOutcome.scanAt (nextButton nButtons buttonIx) ∧
    ((isLastButton nButtons buttonIx && isLastLoop leafLoops loopIx) = false →
      (leafScanAt nButtons leafLoops buttonIx loopIx).cbpassed =
        LeafOutcome.scanAt (nextButton nButtons buttonIx)
          (nextLoop nButtons buttonIx loopIx)) := by
  refine ⟨rfl, rfl, rfl, fun h => ?_⟩
  show (if isLastButton nButtons buttonIx && isLastLoop leafLoops loopIx
        then LeafOutcome.parentScan
        else LeafOutcome.scanAt (nextButton nButtons buttonIx)
               (nextLoop nButtons buttonIx loopIx)) = _
  rw [h]
  rfl

-- Claim C4 — an unconfirmed leaf menu returns after exactly L * N timeouts.

theorem leafRunState_succ (nButtons leafLoops k : Nat) :
    leafRunState nButtons leafLoops (k + 1) =
      (leafRunState nButtons leafLoops k).bind (leafStep nButtons leafLoops) := rfl

theorem leafStep_mid {nButtons leafLoops buttonIx loopIx : Nat}
    (h : buttonIx + 1 < nButtons) :
    leafStep nButtons leafLoops (buttonIx, loopIx) = some (buttonIx + 1, loopIx) := by
  have hb : (buttonIx == nButtons - 1) = false := by
    rw [beq_eq_false_iff_ne]
    omega
  simp only [leafStep, leafScanAt, isLastButton, isLastLoop, nextButton, nextLoop,
    hb, Bool.false_and, if_false]
  rw [Nat.mod_eq_of_lt h]
  rfl

theorem leafStep_wrap {nButtons leafLoops loopIx : Nat} (hN : 0 < nButtons)
    (hl : loopIx ≠ leafLoops - 1) :
    leafStep nButtons leafLoops (nButtons - 1, loopIx) = some (0, loopIx + 1) := by
  have hb : (nButtons - 1 == nButtons - 1) = true := by simp
  have hloop : (loopIx == leafLoops - 1) = false := by
    rw [beq_eq_false_iff_ne]
    exact hl
  simp only [leafStep, leafScanAt, isLastButton, isLastLoop, nextButton, nextLoop,
    hb, hloop, Bool.true_and, if_false, if_true]
  rw [Nat.sub_add_cancel hN, Nat.mod_self]
  rfl

theorem leafStep_final (nButtons leafLoops : Nat) :
    leafStep nButtons leafLoops (nButtons - 1, leafLoops - 1) = none := by
  simp [leafStep, leafScanAt, isLastButton, isLastLoop]

theorem leafStep_shift (nButtons leafLoops : Nat) (hL : 2 ≤ leafLoops)
    (c : Nat × Nat) :
    leafStep nButtons leafLoops (c.1, c.2 + 1) =
      shiftCell (leafStep nButtons (leafLoops - 1) c) := by
  obtain ⟨i, l⟩ := c
  have hcond : (l + 1 == leafLoops - 1) = (l == leafLoops - 1 - 1) := by
    rw [Bool.eq_iff_iff]
    simp only [beq_iff_eq]
    omega
  simp only [leafStep, leafScanAt, isLastButton, isLastLoop, nextButton, nextLoop,
    shiftCell, hcond]
  cases hb : (i == nButtons - 1) <;> cases hl2 : (l == leafLoops - 1 - 1) <;>
    simp [Option.map]

theorem leafRun_first_pass (nButtons leafLoops : Nat) :
    ∀ buttonIx, buttonIx < nButtons →
      leafRunState nButtons leafLoops buttonIx = some (buttonIx, 0) := by
  intro buttonIx
  induction buttonIx with
  | zero => intro _; rfl
  | succ i ih =>
    intro h
    rw [leafRunState_succ, ih (Nat.lt_of_succ_lt h)]
    exact leafStep_mid h

theorem leafRun_shift (nButtons leafLoops : Nat) (hN : 0 < nButtons)
    (hL : 2 ≤ leafLoops) :
    ∀ j, leafRunState nButtons leafLoops (nButtons + j) =
      shiftCell (leafRunState nButtons (leafLoops - 1) j) := by
  intro j
  induction j with
  | zero =>
    rw [Nat.add_zero]
    obtain ⟨n, rfl⟩ : ∃ n, nButtons = n + 1 :=
      ⟨nButtons - 1, (Nat.succ_pred_eq_of_pos hN).symm⟩
    rw [leafRunState_succ,
        leafRun_first_pass (n + 1) leafLoops n (Nat.lt_succ_self n)]
    have hstep := @leafStep_wrap (n + 1) leafLoops 0 hN (by omega)
    simp only [Nat.add_sub_cancel] at hstep
    show leafStep (n + 1) leafLoops (n, 0) = _
    rw [hstep]
    rfl
  | succ j ih =>
    rw [show nButtons + (j + 1) = (nButtons + j) + 1 by omega,
        leafRunState_succ, ih, leafRunState_succ]
    cases hX : leafRunState nButtons (leafLoops - 1) j with
    | none => rfl
    | some c =>
      show leafStep nButtons leafLoops (c.1, c.2 + 1) = _
      exact leafStep_shift nButtons leafLoops hL c

theorem leafRun_total : ∀ leafLoops, 0 < leafLoops → ∀ nButtons, 0 < nButtons →
    (∀ k, k < leafLoops * nButtons →
      (leafRunState nButtons leafLoops k).isSome = true) ∧
    leafRunState nButtons leafLoops (leafLoops * nButtons) = none := by
  intro leafLoops
  induction leafLoops with
  | zero => intro h; exact absurd h (lt_irrefl 0)
  | succ L ihL =>
    intro _ nButtons hN
    by_cases hL0 : L = 0
    · subst hL0
      constructor
      · intro k hk
        rw [Nat.one_mul] at hk
        rw [leafRun_first_pass nButtons 1 k hk]
        rfl
      · rw [Nat.one_mul]
        obtain ⟨n, rfl⟩ : ∃ n, nButtons = n + 1 :=
          ⟨nButtons - 1, (Nat.succ_pred_eq_of_pos hN).symm⟩
        rw [leafRunState_succ,
            leafRun_first_pass (n + 1) 1 n (Nat.lt_succ_self n)]
        exact leafStep_final (n + 1) 1
    · have hL : 0 < L := Nat.pos_of_ne_zero hL0
      obtain ⟨hsome, hnone⟩ := ihL hL nButtons hN
      have hshift : ∀ j, leafRunState nButtons (L + 1) (nButtons + j) =
          shiftCell (leafRunState nButtons L j) := by
        intro j
        have h2 := leafRun_shift nButtons (L + 1) hN (by omega) j
        rwa [Nat.add_sub_cancel] at h2
      constructor
      · intro k hk
        by_cases hkN : k < nButtons
        · rw [leafRun_first_pass nButtons (L + 1) k hkN]
          rfl
        · obtain ⟨j, rfl⟩ : ∃ j, k = nButtons + j := ⟨k - nButtons, by omega⟩
          have hj : j < L * nButtons := by
            rw [Nat.succ_mul, Nat.add_comm (L * nButtons) nButtons] at hk
            exact Nat.lt_of_add_lt_add_left hk
          rw [hshift j]
          cases hX : leafRunState nButtons L j with
          | none =>
            have hs := hsome j hj
            rw [hX] at hs
            exact absurd hs (by decide)
          | some c => rfl
      · have e : (L + 1) * nButtons = nButtons + L * nButtons := by
          rw [Nat.succ_mul, Nat.add_comm]
        rw [e, hshift (L * nButtons), hnone]
        rfl

/-- Claim C4: a leaf (return-to-parent) menu with nButtons buttons and loop
limit leafLoops (the source constant LEAF_LOOPS is 2) that starts scanning at
index 0 and receives no confirmation is still scanning after every number of
timeouts below leafLoops * nButtons and has handed control back to its parent
after exactly leafLoops * nButtons timeouts. -/
theorem claim_C4 (nButtons leafLoops : Nat) (hN : 0 < nButtons)
    (hL : 0 < leafLoops) :
    LEAF_LOOPS = 2 ∧
    (∀ k, k < leafLoops * nButtons →
      (leafRunState nButtons leafLoops k).isSome = true) ∧
    leafRunState nButtons leafLoops (leafLoops * nButtons) = none :=
  ⟨rfl, (leafRun_total leafLoops hL nButtons hN).1,
   (leafRun_total leafLoops hL nButtons hN).2⟩

/-- Witness for claim C4 at three buttons and the source loop limit 2: the
sixth timeout, and no earlier one, hands control back. -/
theorem claim_C4_witness :
    LEAF_LOOPS = 2 ∧
    (∀ k, k < 2 * 3 → (leafRunState 3 2 k).isSome = true) ∧
    leafRunState 3 2 (2 * 3) = none :=
  claim_C4 3 2 (by decide) (by decide)

-- Claim C8 — the two guess implementations build different queries.

/-- Claim C8: for any buffer text with a non-empty final token, the
monolithic and the refactored guess menus both issue a wordnik query, but the
refactored query word carries a trailing wildcard, the case sensitivity flags
are true versus false, and the guess limits are 7 versus 8 — the two
implementations are not equivalent. -/
theorem claim_C8 (inputText : List Char) (searchResults : List SearchResult)
    (h : lastToken inputText ≠ []) :
    ∃ q1 q2 : WordnikQuery,
      (Wedjat.guessWord inputText searchResults).queried = some q1 ∧
      (Modular.guessWord inputText searchResults).queried = some q2 ∧
      q2.word = q1.word ++ ['*'] ∧
      q1.caseSensitive = true ∧ q2.caseSensitive = false ∧
      q1.limit = 7 ∧ q2.limit = 8 ∧
      Wedjat.N_GUESSES = 7 ∧ Modular.N_GUESSES = 8 ∧
      q1 ≠ q2 := by
  refine ⟨Wedjat.wordnik (lastToken inputText),
          Modular.wordnik (lastToken inputText ++ ['*']),
          ?_, ?_, rfl, rfl, rfl, rfl, rfl, rfl, rfl, ?_⟩
  · simp only [Wedjat.guessWord, if_neg h]
  · simp only [Modular.guessWord, if_neg h]
  · intro heq
    have h2 : (true : Bool) = false := congrArg WordnikQuery.caseSensitive heq
    exact Bool.noConfusion h2

/-- Witness for claim C8 at the buffer text "hel" with no search results. -/
theorem claim_C8_witness :
    ∃ q1 q2 : WordnikQuery,
      (Wedjat.guessWord "hel".toList []).queried = some q1 ∧
      (Modular.guessWord "hel".toList []).queried = some q2 ∧
      q2.word = q1.word ++ ['*'] ∧
      q1.caseSensitive = true ∧ q2.caseSensitive = false ∧
      q1.limit = 7 ∧ q2.limit = 8 ∧
      Wedjat.N_GUESSES = 7 ∧ Modular.N_GUESSES = 8 ∧
      q1 ≠ q2 :=
  claim_C8 "hel".toList [] (by decide)

-- Claim C10 — the monolithic guessWord callback contract.

/-- Claim C10: in the monolithic guess routine, when the final token of the
buffer text is empty the callback receives exactly 7 empty guesses and no web
query is issued; when it is non-empty (the response holding at most the 7
results the query limit allows), the query carries the token and the callback
receives the words of the response with its first raw entry discarded, padded
to exactly 7 entries. -/
theorem claim_C10 (inputText : List Char) (searchResults : List SearchResult)
    (hlim : searchResults.length ≤ Wedjat.N_GUESSES) :
    (lastToken inputText = [] →
      Wedjat.guessWord inputText searchResults =
        ⟨none, List.replicate 7 []⟩) ∧
    (lastToken inputText ≠ [] →
      (Wedjat.guessWord inputText searchResults).queried =
        some (Wedjat.wordnik (lastToken inputText)) ∧
      (Wedjat.guessWord inputText searchResults).result =
        (searchResults.drop 1).map SearchResult.word ++
          List.replicate (7 - (searchResults.length - 1)) [] ∧
      (Wedjat.guessWord inputText searchResults).result.length = 7) := by
  constructor
  · intro h
    simp only [Wedjat.guessWord, if_pos h]
    rfl
  · intro h
    have hq : Wedjat.guessWord inputText searchResults =
        ⟨some (Wedjat.wordnik (lastToken inputText)),
         utilPad ((searchResults.drop 1).map SearchResult.word) []
           Wedjat.N_GUESSES⟩ := by
      simp only [Wedjat.guessWord, if_neg h]
    rw [hq]
    refine ⟨rfl, ?_, ?_⟩
    · simp only [utilPad, Wedjat.N_GUESSES, List.length_map, List.length_drop]
    · simp only [utilPad, Wedjat.N_GUESSES, List.length_append,
        List.length_replicate, List.length_map, List.length_drop]
      have hlim7 : searchResults.length ≤ 7 := hlim
      omega

/-- Witness for claim C10 at the buffer text "ab wo" and a two-entry
response. -/
theorem claim_C10_witness :
    (lastToken "ab wo".toList = [] →
      Wedjat.guessWord "ab wo".toList [⟨"alpha".toList⟩, ⟨"beta".toList⟩] =
        ⟨none, List.replicate 7 []⟩) ∧
    (lastToken "ab wo".toList ≠ [] →
      (Wedjat.guessWord "ab wo".toList
          [⟨"alpha".toList⟩, ⟨"beta".toList⟩]).queried =
        some (Wedjat.wordnik (lastToken "ab wo".toList)) ∧
      (Wedjat.guessWord "ab wo".toList
          [⟨"alpha".toList⟩, ⟨"beta".toList⟩]).result =
        (([⟨"alpha".toList⟩, ⟨"beta".toList⟩] :
            List SearchResult).drop 1).map SearchResult.word ++
          List.replicate
            (7 - (([⟨"alpha".toList⟩, ⟨"beta".toList⟩] :
              List SearchResult).length - 1)) [] ∧
      (Wedjat.guessWord "ab wo".toList
          [⟨"alpha".toList⟩, ⟨"beta".toList⟩]).result.length = 7) :=
  claim_C10 "ab wo".toList [⟨"alpha".toList⟩, ⟨"beta".toList⟩] (by decide)
